import Mathlib

/-!
# Wallet-based nonce authentication — verification development

Shallow embedding of the Web3 authentication backend
(`src/backend/server.js`): nonce issuance, signature verification,
JWT issuance, and wallet linking, together with theorems checking the
natural-language specification against the embedded code.

External collaborators (the `ethers` library, the `jsonwebtoken`
library, and the hosted relational store) are modelled as explicit
parameters or as concrete state passed through each handler; the
handler bodies themselves are translated line by line from
`server.js`.
-/

/-! ## String helpers (JS `toLowerCase`, truthiness) -/

/-- ASCII lower-casing of a single character, as JS `toLowerCase`
behaves on the ASCII range used by hex addresses. -/
def lowerChar (c : Char) : Char :=
  if 'A' ≤ c ∧ c ≤ 'Z' then Char.ofNat (c.toNat + 32) else c

/-- JS `String.prototype.toLowerCase` restricted to ASCII. -/
def lowerStr (s : String) : String := ⟨s.data.map lowerChar⟩

/-- JS truthiness test for an optional string field:
`!x` is true when the field is absent or the empty string. -/
def falsy : Option String → Bool
  | none => true
  | some s => decide (s = "")

/-! ## The `Nonce: ([a-f0-9]+)` extraction (server.js line 101) -/

/-- Character class `[a-f0-9]` of the extraction pattern. -/
def isHexLower (c : Char) : Bool :=
  (('a' ≤ c && c ≤ 'f') || ('0' ≤ c && c ≤ '9'))

/-- Literal prefix test on character lists. -/
def isPrefixL : List Char → List Char → Bool
  | [], _ => true
  | _ :: _, [] => false
  | c :: p, d :: l => decide (c = d) && isPrefixL p l

/-- The literal part of the pattern. -/
def nonceLit : List Char := ("Nonce: ").data

/-- Attempt to match `Nonce: ([a-f0-9]+)` at the head of the list:
the literal must be present and at least one class character must
follow; the capture is the maximal run of class characters. -/
def matchNonceAt (l : List Char) : Option (List Char) :=
  if isPrefixL nonceLit l then
    let t := (l.drop nonceLit.length).takeWhile isHexLower
    if t.isEmpty then none else some t
  else none

/-- Leftmost-match semantics of `message.match(/Nonce: ([a-f0-9]+)/)`:
scan left to right, return the first successful capture. -/
def extractNonce : List Char → Option (List Char)
  | [] => none
  | c :: rest =>
    match matchNonceAt (c :: rest) with
    | some t => some t
    | none => extractNonce rest

/-- String-level wrapper of the extraction. -/
def extractNonceStr (s : String) : Option String :=
  (extractNonce s.data).map (fun l => ⟨l⟩)

/-- The challenge message built at server.js line 70:
fixed preamble, `Nonce: <token>` line, `Timestamp: <ISO>` line. -/
def challengeMessage (nonce ts : String) : String :=
  "Sign this message to authenticate with DilSe Matchify.\n\nNonce: " ++
    nonce ++ "\nTimestamp: " ++ ts

/-! ## Data model (the supabase tables used by the auth endpoints) -/

/-- A row of the `auth_nonces` table. -/
structure NonceRow where
  id : Nat
  walletAddress : String
  nonce : String
  expiresAt : Nat
  used : Bool
deriving DecidableEq

/-- A row of the `wallet_addresses` table. -/
structure WalletRow where
  userId : String
  walletAddress : String
  isPrimary : Bool
deriving DecidableEq

/-- A row of the `profiles` table (fields inserted by the verify flow). -/
structure ProfileRow where
  id : String
  email : String
  firstName : String
  lastName : String
  profileCompletion : Nat
deriving DecidableEq

/-- The persistent store as seen by the three auth endpoints.
`nextNonceId` models the store-assigned row id of the next insert. -/
structure DB where
  authNonces : List NonceRow
  walletAddresses : List WalletRow
  profiles : List ProfileRow
  nextNonceId : Nat
deriving DecidableEq

/-- supabase `.maybeSingle()`: `some` on exactly one row, `null` data
otherwise (zero rows, or the more-than-one-row error whose `data` is
also null and which the handlers fold into the null case). -/
def maybeSingle {α : Type} : List α → Option α
  | [x] => some x
  | _ => none

/-! ## External collaborators (ethers, jsonwebtoken, supabase.auth) -/

/-- JWT payload signed at server.js lines 200-208. -/
structure JwtPayload where
  userId : String
  walletAddress : String
  authMethod : String
deriving DecidableEq

/-- A signed JWT: payload plus the `iat`/`exp` claims the library adds. -/
structure SignedJwt where
  payload : JwtPayload
  iat : Nat
  exp : Nat
deriving DecidableEq

/-- `expiresIn: '7d'` in milliseconds. -/
def sevenDays : Nat := 7 * 24 * 60 * 60 * 1000

/-- `5 * 60 * 1000` (server.js line 52). -/
def fiveMinutes : Nat := 5 * 60 * 1000

/-- `jwt.sign(payload, JWT_SECRET, { expiresIn: '7d' })`: pure —
a function of the payload and the signing time only. -/
def jwtSign (p : JwtPayload) (now : Nat) : SignedJwt :=
  ⟨p, now, now + sevenDays⟩

/-- Modelled from the spec: the external collaborators of the handlers
(the `ethers` signature/address primitives, `jwt.verify`,
`Date.toISOString`, `supabase.auth.signUp`, and the store's
insert-failure outcomes), none of which live under `src/`.
`getAddress`/`verifyMessage` return `none` where the library throws. -/
structure Env where
  isAddress : String → Bool
  getAddress : String → Option String
  verifyMessage : String → String → Option String
  jwtVerify : String → Option JwtPayload
  toISOString : Nat → String
  signUpResult : Option String
  nonceInsertFails : Bool
  profileInsertFails : Bool
  walletInsertFails : Bool
  linkInsertFails : Bool

/-! ## HTTP responses -/

/-- A JSON response: an error status with its message, or a success body. -/
inductive HttpRes (α : Type) where
  | err (status : Nat) (msg : String)
  | ok (v : α)
deriving DecidableEq

/-- Whether a response is a success body. -/
def HttpRes.isOk {α : Type} : HttpRes α → Bool
  | .ok _ => true
  | .err _ _ => false

/-- Success body of `GET /api/auth/nonce/:walletAddress`. -/
structure NonceSuccess where
  nonce : String
  message : String
  expiresAt : String
deriving DecidableEq

/-- Success body of `POST /api/auth/verify`. -/
structure VerifySuccess where
  token : SignedJwt
  userId : String
  walletAddress : String
  isNewUser : Bool
  message : String
deriving DecidableEq

/-- Success body of `POST /api/auth/link-wallet`. -/
structure LinkSuccess where
  message : String
  walletAddress : String
deriving DecidableEq

/-! ## GET /api/auth/nonce/:walletAddress (server.js lines 42-81) -/

/-- The nonce-issuance endpoint. `nonceTok` stands for the value of
`generateNonce()` (`crypto.randomBytes(32).toString('hex')`), supplied
from outside because it is random. -/
def nonceHandler (env : Env) (now : Nat) (nonceTok : String) (db : DB)
    (walletAddress : String) : DB × HttpRes NonceSuccess :=
  if env.isAddress walletAddress = false then
    (db, .err 400 "Invalid wallet address")
  else
    match env.getAddress walletAddress with
    | none => (db, .err 500 "Internal server error")
    | some checksummedAddress =>
      if env.nonceInsertFails then
        (db, .err 500 "Failed to generate nonce")
      else
        let row : NonceRow :=
          ⟨db.nextNonceId, checksummedAddress, nonceTok, now + fiveMinutes, false⟩
        ({ db with authNonces := db.authNonces ++ [row],
                   nextNonceId := db.nextNonceId + 1 },
         .ok ⟨nonceTok, challengeMessage nonceTok (env.toISOString now),
              env.toISOString (now + fiveMinutes)⟩)

/-! ## POST /api/auth/verify (server.js lines 87-223) -/

/-- Request body of the verify endpoint (absent fields as `none`). -/
structure VerifyReq where
  walletAddress : Option String
  signature : Option String
  message : Option String
deriving DecidableEq

/-- Row filter of the nonce select (server.js lines 107-113):
`.eq('nonce', n).eq('wallet_address', a).eq('used', false)`. -/
def nonceSelPred (nonce checksummed : String) (r : NonceRow) : Bool :=
  decide (r.nonce = nonce ∧ r.walletAddress = checksummed ∧ r.used = false)

/-- The nonce select with `.maybeSingle()`. -/
def consumeLookup (db : DB) (nonce checksummed : String) : Option NonceRow :=
  maybeSingle (db.authNonces.filter (nonceSelPred nonce checksummed))

/-- The `update({ used: true }).eq('id', ...)` write (lines 135-138). -/
def markUsed (db : DB) (rowId : Nat) : DB :=
  { db with authNonces :=
      db.authNonces.map (fun r => if r.id = rowId then { r with used := true } else r) }

/-- The wallet lookup of lines 140-144. -/
def walletLookup (db : DB) (checksummed : String) : Option WalletRow :=
  maybeSingle (db.walletAddresses.filter (fun r => decide (r.walletAddress = checksummed)))

/-- `` `${checksummedAddress.toLowerCase()}@wallet.dilsematchify.com` `` -/
def tempEmail (checksummed : String) : String :=
  lowerStr checksummed ++ "@wallet.dilsematchify.com"

/-- `if (walletData && walletData.user_id)`: the existing user id, when
a row was found and its `user_id` is truthy. -/
def resolveHit (db : DB) (checksummed : String) : Option String :=
  match walletLookup db checksummed with
  | some w => if w.userId = "" then none else some w.userId
  | none => none

/-- New-account provisioning (server.js lines 152-198): sign-up via the
external auth service, then profile and wallet-link inserts whose
errors are logged but otherwise ignored, then JWT issuance. -/
def createUser (env : Env) (now : Nat) (db : DB) (checksummed : String) :
    DB × HttpRes VerifySuccess :=
  match env.signUpResult with
  | none => (db, .err 500 "Failed to create user account")
  | some uid =>
    let db1 :=
      if env.profileInsertFails then db
      else { db with profiles := db.profiles ++
              [⟨uid, tempEmail checksummed, "User", ⟨checksummed.data.take 8⟩, 10⟩] }
    let db2 :=
      if env.walletInsertFails then db1
      else { db1 with walletAddresses := db1.walletAddresses ++
              [⟨uid, checksummed, true⟩] }
    (db2, .ok ⟨jwtSign ⟨uid, checksummed, "wallet"⟩ now, uid, checksummed,
               true, "Account created successfully"⟩)

/-- Lines 140-217: identity resolution and JWT issuance after the
nonce has been consumed. -/
def finishVerify (env : Env) (now : Nat) (db : DB) (checksummed : String) :
    DB × HttpRes VerifySuccess :=
  match resolveHit db checksummed with
  | some uid =>
    (db, .ok ⟨jwtSign ⟨uid, checksummed, "wallet"⟩ now, uid, checksummed,
              false, "Login successful"⟩)
  | none => createUser env now db checksummed

/-- Everything the verify endpoint does up to and including the nonce
select (lines 88-133): validation, extraction, the `used = false`
lookup, expiry check, signature recovery and the lower-cased address
comparison of line 131. Read-only on the store. -/
def verifyPhase1 (env : Env) (now : Nat) (db : DB) (req : VerifyReq) :
    Sum (HttpRes VerifySuccess) (String × NonceRow) :=
  if falsy req.walletAddress || falsy req.signature || falsy req.message then
    .inl (.err 400 "Missing required fields")
  else
    let w := req.walletAddress.getD ""
    let sg := req.signature.getD ""
    let msg := req.message.getD ""
    if env.isAddress w = false then .inl (.err 400 "Invalid wallet address")
    else
      match env.getAddress w with
      | none => .inl (.err 500 "Internal server error")
      | some checksummedAddress =>
        match extractNonceStr msg with
        | none => .inl (.err 400 "Invalid message format")
        | some nonce =>
          match consumeLookup db nonce checksummedAddress with
          | none => .inl (.err 401 "Invalid or expired nonce")
          | some nonceData =>
            if nonceData.expiresAt < now then .inl (.err 401 "Nonce has expired")
            else
              match env.verifyMessage msg sg with
              | none => .inl (.err 401 "Invalid signature")
              | some recoveredAddress =>
                if lowerStr recoveredAddress ≠ lowerStr checksummedAddress then
                  .inl (.err 401 "Signature does not match wallet address")
                else .inr (checksummedAddress, nonceData)

/-- The separate `used := true` write (lines 135-138) followed by
identity resolution and response (lines 140-217). -/
def verifyPhase2 (env : Env) (now : Nat) (db : DB) (checksummed : String)
    (row : NonceRow) : DB × HttpRes VerifySuccess :=
  finishVerify env now (markUsed db row.id) checksummed

/-- The verify endpoint: phase 1 (checks ending in the select), then
phase 2 (the update and the rest). -/
def verifyHandler (env : Env) (now : Nat) (db : DB) (req : VerifyReq) :
    DB × HttpRes VerifySuccess :=
  match verifyPhase1 env now db req with
  | .inl e => (db, e)
  | .inr (c, row) => verifyPhase2 env now db c row

/-! ## POST /api/auth/link-wallet (server.js lines 229-290) -/

/-- Request body of the link-wallet endpoint. -/
structure LinkReq where
  walletAddress : Option String
  userId : Option String
  authToken : Option String
deriving DecidableEq

/-- Number of wallet rows of a user (the `select('id').eq('user_id', ...)`
of lines 260-263). -/
def userWalletCount (db : DB) (uid : String) : Nat :=
  (db.walletAddresses.filter (fun r => decide (r.userId = uid))).length

/-- The link-wallet endpoint. Note: `ethers.getAddress` is called with
no prior `isAddress` validation; a throw lands in the generic catch
(lines 286-289). -/
def linkWalletHandler (env : Env) (db : DB) (req : LinkReq) :
    DB × HttpRes LinkSuccess :=
  if falsy req.walletAddress || falsy req.userId || falsy req.authToken then
    (db, .err 400 "Missing required fields")
  else
    let w := req.walletAddress.getD ""
    let uid := req.userId.getD ""
    match env.jwtVerify (req.authToken.getD "") with
    | none => (db, .err 401 "Invalid or expired token")
    | some decoded =>
      if decoded.userId ≠ uid then (db, .err 403 "Unauthorized")
      else
        match env.getAddress w with
        | none => (db, .err 500 "Internal server error")
        | some checksummedAddress =>
          match walletLookup db checksummedAddress with
          | some _ => (db, .err 400 "Wallet already linked to another account")
          | none =>
            let isPrimaryLink := decide (userWalletCount db uid = 0)
            if env.linkInsertFails then (db, .err 500 "Failed to link wallet")
            else
              ({ db with walletAddresses := db.walletAddresses ++
                  [⟨uid, checksummedAddress, isPrimaryLink⟩] },
               .ok ⟨"Wallet linked successfully", checksummedAddress⟩)

/-! ## Interleaved execution of two verify requests

The two store operations of a verify request (the nonce select and the
`used := true` update) are separate awaited calls; between them runs
only in-process computation. A request is therefore a two-step process
on the shared store, and two concurrent requests interleave at this
granularity. -/

/-- Progress of one verify request through its two store operations. -/
inductive RState where
  | start (req : VerifyReq)
  | mid (checksummed : String) (row : NonceRow)
  | done (res : HttpRes VerifySuccess)
deriving DecidableEq

/-- Whether a request finished with a success response. -/
def RState.isDoneOk : RState → Bool
  | .done r => r.isOk
  | _ => false

/-- One atomic step of a single request against the shared store. -/
def stepReq (env : Env) (now : Nat) (db : DB) : RState → DB × RState
  | .start req =>
    match verifyPhase1 env now db req with
    | .inl e => (db, .done e)
    | .inr (c, row) => (db, .mid c row)
  | .mid c row =>
    let out := verifyPhase2 env now db c row
    (out.1, .done out.2)
  | .done r => (db, .done r)

/-- Shared store plus the progress of two concurrent verify requests. -/
structure TwoState where
  db : DB
  s1 : RState
  s2 : RState
deriving DecidableEq

/-- Schedule one step: `true` steps the first request, `false` the second. -/
def stepTwo (env : Env) (now : Nat) (st : TwoState) (pick : Bool) : TwoState :=
  if pick then
    let out := stepReq env now st.db st.s1
    { st with db := out.1, s1 := out.2 }
  else
    let out := stepReq env now st.db st.s2
    { st with db := out.1, s2 := out.2 }

/-- Run a schedule of interleaved steps. -/
def runTwo (env : Env) (now : Nat) (st : TwoState) : List Bool → TwoState
  | [] => st
  | p :: ps => runTwo env now (stepTwo env now st p) ps

/-! ## Concrete test fixtures (used by witnesses and counterexamples) -/

/-- A wallet address in its canonical checksummed form, as fixture. -/
def addr0 : String := "0xAbC"

/-- A (short) hex nonce token, as fixture. -/
def tok0 : String := "abc123"

/-- A fixed ISO-8601 timestamp string, as fixture. -/
def iso0 : String := "2025-01-01T00:00:00.000Z"

/-- The challenge message for `tok0` issued at a time rendering `iso0`. -/
def msg0 : String := challengeMessage tok0 iso0

/-- JWT payload of the fixture user. -/
def payload0 : JwtPayload := ⟨"user-1", addr0, "wallet"⟩

/-- Concrete collaborator behaviour: `addr0` is the only valid address
and is already checksummed; the signature `goodsig` over `msg0`
recovers `addr0`; `token-1` is the only valid session token. -/
def env0 : Env :=
  { isAddress := fun s => decide (s = addr0)
    getAddress := fun s => if s = addr0 then some addr0 else none
    verifyMessage := fun m s =>
      if m = msg0 ∧ s = "goodsig" then some addr0 else none
    jwtVerify := fun t => if t = "token-1" then some payload0 else none
    toISOString := fun _ => iso0
    signUpResult := some "user-1"
    nonceInsertFails := false
    profileInsertFails := false
    walletInsertFails := false
    linkInsertFails := false }

/-- `env0` with both resolver-side inserts failing. -/
def env9 : Env := { env0 with profileInsertFails := true, walletInsertFails := true }

/-- A verify request with the valid signature. -/
def req0 : VerifyReq := ⟨some addr0, some "goodsig", some msg0⟩

/-- A verify request with an invalid signature. -/
def reqBad : VerifyReq := ⟨some addr0, some "badsig", some msg0⟩

/-- An issued, unused, unexpired (at time 500) nonce row for `addr0`. -/
def rowUnused : NonceRow := ⟨0, addr0, tok0, 1000, false⟩

/-- A store with no rows at all. -/
def dbEmpty : DB := ⟨[], [], [], 1⟩

/-- A store holding exactly the unused nonce row. -/
def dbOne : DB := ⟨[rowUnused], [], [], 1⟩

/-- A store where the same nonce has already been consumed. -/
def dbUsed : DB := ⟨[⟨0, addr0, tok0, 1000, true⟩], [], [], 1⟩

/-- A store where the nonce expired (at time 10) before the attempt. -/
def dbExpired : DB := ⟨[⟨0, addr0, tok0, 10, false⟩], [], [], 1⟩

/-- Case-sensitivity fixtures: claimed address input `0xab`, canonical
checksum form `0xAB`. `vm` is the address returned by signature
recovery. -/
def envC2 (vm : Option String) : Env :=
  { isAddress := fun s => decide (s = "0xab")
    getAddress := fun s => if s = "0xab" then some "0xAB" else none
    verifyMessage := fun _ _ => vm
    jwtVerify := fun _ => none
    toISOString := fun _ => iso0
    signUpResult := some "user-1"
    nonceInsertFails := false
    profileInsertFails := false
    walletInsertFails := false
    linkInsertFails := false }

/-- Nonce row stored under the canonical form `0xAB`. -/
def rowW : NonceRow := ⟨0, "0xAB", tok0, 1000, false⟩

/-- Store for the case-sensitivity scenarios. -/
def dbW : DB := ⟨[rowW], [], [], 1⟩

/-- Verify request presenting the lower-case spelling of the address. -/
def reqW : VerifyReq := ⟨some "0xab", some "sig1", some msg0⟩

/-- A canonical-checksum function standing in for EIP-55 on two
underlying addresses: `0 ↦ 0xAB`, other ↦ `0xCD`. -/
def canonW : Nat → String := fun n => if n = 0 then "0xAB" else "0xCD"

/-- Store with `addr0` already linked to the caller's own account. -/
def dbLinked : DB := ⟨[], [⟨"user-1", addr0, true⟩], [], 1⟩

/-- Link request for `addr0` by `user-1` with the valid token. -/
def linkReq0 : LinkReq := ⟨some addr0, some "user-1", some "token-1"⟩

/-- A 64-character lowercase-hex token, as produced by
`crypto.randomBytes(32).toString('hex')`. -/
def tok64 : String :=
  "0123456789abcdef0123456789abcdef0123456789abcdef0123456789abcdef"
/-! ### Extraction lemmas -/

theorem isPrefixL_append_self (p r : List Char) : isPrefixL p (p ++ r) = true := by
  induction p with
  | nil => rfl
  | cons c p ih => simp [isPrefixL, ih]

theorem matchNonceAt_not_N {c : Char} (l : List Char) (h : c ≠ 'N') :
    matchNonceAt (c :: l) = none := by
  have hd : decide ('N' = c) = false := decide_eq_false (fun h2 => h h2.symm)
  have hp : isPrefixL nonceLit (c :: l) = false := by
    show (decide ('N' = c) && isPrefixL (("once: ").data) l) = false
    rw [hd, Bool.false_and]
  simp [matchNonceAt, hp]

theorem extractNonce_skip (p l : List Char)
    (hp : p.all (fun c => decide (c ≠ 'N')) = true) :
    extractNonce (p ++ l) = extractNonce l := by
  induction p with
  | nil => rfl
  | cons c p ih =>
    simp only [List.all_cons, Bool.and_eq_true, decide_eq_true_eq] at hp
    rw [List.cons_append, extractNonce, matchNonceAt_not_N _ hp.1, ih hp.2]

theorem takeWhile_hex_append (t r : List Char) (ht : t.all isHexLower = true) :
    (t ++ '\n' :: r).takeWhile isHexLower = t := by
  induction t with
  | nil =>
    have hnl : isHexLower '\n' = false := by decide
    simp [List.takeWhile, hnl]
  | cons c t ih =>
    simp only [List.all_cons, Bool.and_eq_true] at ht
    simp [List.takeWhile, ht.1, ih ht.2]

theorem extractNonce_at_match (tok r : List Char)
    (hne : tok ≠ []) (hhex : tok.all isHexLower = true) :
    extractNonce (nonceLit ++ (tok ++ '\n' :: r)) = some tok := by
  have hm : matchNonceAt (nonceLit ++ (tok ++ '\n' :: r)) = some tok := by
    rw [matchNonceAt]
    rw [isPrefixL_append_self]
    simp only [if_true]
    rw [List.drop_left, takeWhile_hex_append tok r hhex]
    simp [List.isEmpty_iff, hne]
  show extractNonce ('N' :: (("once: ").data ++ (tok ++ '\n' :: r))) = some tok
  rw [extractNonce]
  have : ('N' :: (("once: ").data ++ (tok ++ '\n' :: r)))
      = nonceLit ++ (tok ++ '\n' :: r) := by rfl
  rw [this, hm]

/-- The challenge message decomposes into a character list whose only
occurrence of the literal `Nonce: ` is the intended one. -/
theorem challengeMessage_data (tok ts : String) :
    (challengeMessage tok ts).data =
      ("Sign this message to authenticate with DilSe Matchify.\n\n").data ++
        (nonceLit ++ (tok.data ++ '\n' :: (("Timestamp: ").data ++ ts.data))) := by
  show (("Sign this message to authenticate with DilSe Matchify.\n\nNonce: " ++
    tok ++ "\nTimestamp: " ++ ts)).data = _
  rw [String.data_append, String.data_append, String.data_append]
  have h1 : ("Sign this message to authenticate with DilSe Matchify.\n\nNonce: ").data
      = ("Sign this message to authenticate with DilSe Matchify.\n\n").data ++ nonceLit := by
    decide
  have h2 : ("\nTimestamp: ").data = '\n' :: ("Timestamp: ").data := by decide
  rw [h1, h2]
  simp [List.append_assoc]

/-- Core round-trip: the verification-side extraction recovers the
token embedded by issuance, for any nonempty all-hex token. -/
theorem extract_roundtrip (tok ts : String)
    (hne : tok.data ≠ []) (hhex : tok.data.all isHexLower = true) :
    extractNonceStr (challengeMessage tok ts) = some tok := by
  rw [extractNonceStr, challengeMessage_data]
  rw [extractNonce_skip _ _ (by decide)]
  rw [extractNonce_at_match _ _ hne hhex]
  rfl

theorem challengeMessage_ne_empty (tok ts : String) :
    challengeMessage tok ts ≠ "" := by
  intro h
  have hd := congrArg String.data h
  rw [challengeMessage_data] at hd
  exact absurd hd (by simp)


/-! ### Verify-handler lemmas -/

/-- Phase 1 up to the signature step: with the field, address, format,
lookup and expiry checks all passing, the outcome is decided by
signature recovery and the lower-cased comparison of line 131. -/
theorem verifyPhase1_sigStage (env : Env) (now : Nat) (db : DB)
    (w sg msg tok c : String) (row : NonceRow)
    (hw : w ≠ "") (hs : sg ≠ "") (hm : msg ≠ "")
    (hAddr : env.isAddress w = true)
    (hGet : env.getAddress w = some c)
    (hExtract : extractNonceStr msg = some tok)
    (hLookup : db.authNonces.filter (nonceSelPred tok c) = [row])
    (hNotExp : ¬ row.expiresAt < now) :
    verifyPhase1 env now db ⟨some w, some sg, some msg⟩ =
      (match env.verifyMessage msg sg with
       | none => .inl (.err 401 "Invalid signature")
       | some recoveredAddress =>
         if lowerStr recoveredAddress ≠ lowerStr c then
           .inl (.err 401 "Signature does not match wallet address")
         else .inr (c, row)) := by
  unfold verifyPhase1
  simp [falsy, hw, hs, hm, hAddr, hGet, hExtract, consumeLookup, hLookup,
        maybeSingle, hNotExp]

/-- Phase 1 succeeds when additionally recovery returns an address
whose lower-cased form matches. -/
theorem verifyPhase1_ok (env : Env) (now : Nat) (db : DB)
    (w sg msg tok c recov : String) (row : NonceRow)
    (hw : w ≠ "") (hs : sg ≠ "") (hm : msg ≠ "")
    (hAddr : env.isAddress w = true)
    (hGet : env.getAddress w = some c)
    (hExtract : extractNonceStr msg = some tok)
    (hLookup : db.authNonces.filter (nonceSelPred tok c) = [row])
    (hNotExp : ¬ row.expiresAt < now)
    (hVm : env.verifyMessage msg sg = some recov)
    (hRec : lowerStr recov = lowerStr c) :
    verifyPhase1 env now db ⟨some w, some sg, some msg⟩ = .inr (c, row) := by
  rw [verifyPhase1_sigStage env now db w sg msg tok c row hw hs hm hAddr hGet
      hExtract hLookup hNotExp]
  rw [hVm]
  simp [hRec]

/-- Phase 1 fails with the generic 401 when no unused row matches. -/
theorem verifyPhase1_nonce_gone (env : Env) (now : Nat) (db : DB)
    (w sg msg tok c : String)
    (hw : w ≠ "") (hs : sg ≠ "") (hm : msg ≠ "")
    (hAddr : env.isAddress w = true)
    (hGet : env.getAddress w = some c)
    (hExtract : extractNonceStr msg = some tok)
    (hLookup : db.authNonces.filter (nonceSelPred tok c) = []) :
    verifyPhase1 env now db ⟨some w, some sg, some msg⟩ =
      .inl (.err 401 "Invalid or expired nonce") := by
  unfold verifyPhase1
  simp [falsy, hw, hs, hm, hAddr, hGet, hExtract, consumeLookup, hLookup,
        maybeSingle]

/-- Any `.inl` outcome of phase 1 is an error response. -/
theorem verifyPhase1_inl_isOk (env : Env) (now : Nat) (db : DB)
    (req : VerifyReq) (e : HttpRes VerifySuccess)
    (h : verifyPhase1 env now db req = .inl e) : e.isOk = false := by
  unfold verifyPhase1 at h
  dsimp only at h
  repeat' split at h
  all_goals first
    | (injection h with h2; rw [← h2]; rfl)
    | (injection h)

/-- Identity resolution succeeds whenever the external sign-up does. -/
theorem finishVerify_isOk (env : Env) (now : Nat) (db : DB) (c uid : String)
    (hSignUp : env.signUpResult = some uid) :
    (finishVerify env now db c).2.isOk = true := by
  unfold finishVerify createUser
  cases h : resolveHit db c with
  | some u => rfl
  | none => simp [hSignUp, HttpRes.isOk]

/-- Identity resolution never touches the `auth_nonces` table. -/
theorem finishVerify_authNonces (env : Env) (now : Nat) (db : DB) (c : String) :
    (finishVerify env now db c).1.authNonces = db.authNonces := by
  unfold finishVerify createUser
  cases h : resolveHit db c with
  | some u => rfl
  | none =>
    cases hs : env.signUpResult with
    | none => rfl
    | some uid =>
      cases hp : env.profileInsertFails <;> cases hw2 : env.walletInsertFails <;>
        simp [hp, hw2]

/-- After the `used := true` update, the consume filter of the same
nonce and address matches nothing. -/
theorem filter_markUsed_nil (db : DB) (tok c : String) (row : NonceRow)
    (h : db.authNonces.filter (nonceSelPred tok c) = [row]) :
    (markUsed db row.id).authNonces.filter (nonceSelPred tok c) = [] := by
  rw [markUsed]
  rw [List.filter_eq_nil_iff]
  intro a ha
  rw [List.mem_map] at ha
  obtain ⟨r, hr, hra⟩ := ha
  by_cases hid : r.id = row.id
  · rw [← hra]
    simp [hid, nonceSelPred]
  · rw [← hra]
    rw [if_neg hid]
    intro hpr
    have hmem : r ∈ db.authNonces.filter (nonceSelPred tok c) :=
      List.mem_filter.mpr ⟨hr, hpr⟩
    rw [h] at hmem
    rw [List.mem_singleton] at hmem
    exact hid (by rw [hmem])

/-! ## Claim theorems -/

/-- C4: for every valid wallet address, issuance creates a nonce record
with `used = false` and `expiresAt` equal to issuance time plus 5
minutes, and returns the token together with a challenge message made
of the fixed preamble, a `Nonce: <token>` line and a
`Timestamp: <ISO-8601>` line. -/
theorem c4_issue_shape (env : Env) (now : Nat) (tok w c : String) (db : DB)
    (hAddr : env.isAddress w = true)
    (hGet : env.getAddress w = some c)
    (hIns : env.nonceInsertFails = false) :
    nonceHandler env now tok db w =
      ({ db with
          authNonces := db.authNonces ++
            [⟨db.nextNonceId, c, tok, now + fiveMinutes, false⟩],
          nextNonceId := db.nextNonceId + 1 },
       .ok ⟨tok,
            "Sign this message to authenticate with DilSe Matchify.\n\nNonce: "
              ++ tok ++ "\nTimestamp: " ++ env.toISOString now,
            env.toISOString (now + fiveMinutes)⟩) := by
  unfold nonceHandler
  simp [hAddr, hGet, hIns, challengeMessage]

/-- C4 witness: concrete issuance for `addr0`. -/
theorem c4_issue_shape_witness :
    nonceHandler env0 100 tok0 dbEmpty addr0 =
      (⟨[⟨1, addr0, tok0, 100 + fiveMinutes, false⟩], [], [], 2⟩,
       .ok ⟨tok0, msg0, iso0⟩) :=
  c4_issue_shape env0 100 tok0 addr0 addr0 dbEmpty (by decide) (by decide) rfl

/-- C5: for every 64-character lowercase-hex token, the verify-side
`Nonce: <hex>` extraction applied to the challenge message built from
that token recovers exactly the original token. -/
theorem c5_nonce_roundtrip (tok ts : String)
    (hlen : tok.data.length = 64)
    (hhex : tok.data.all isHexLower = true) :
    extractNonceStr (challengeMessage tok ts) = some tok := by
  apply extract_roundtrip tok ts _ hhex
  intro h
  rw [h] at hlen
  exact absurd hlen (by decide)

/-- C5 witness: concrete 64-character token. -/
theorem c5_nonce_roundtrip_witness :
    extractNonceStr (challengeMessage tok64 iso0) = some tok64 :=
  c5_nonce_roundtrip tok64 iso0 (by decide) (by decide)

/-- C1 counterexample: the claim requires the three consume failure
causes to be pairwise distinguishable to the caller, but the code
returns the identical `401 Invalid or expired nonce` response both
when the nonce does not exist (`dbEmpty`) and when it was already
used (`dbUsed`), because the select filters on `used = false` and the
handler folds "no row" and "used row" into one branch (server.js
lines 107-117). Only the expired case is distinct. -/
theorem c1_counterexample :
    (verifyHandler env0 500 dbEmpty req0).2 = .err 401 "Invalid or expired nonce"
  ∧ (verifyHandler env0 500 dbUsed req0).2 = .err 401 "Invalid or expired nonce"
  ∧ (verifyHandler env0 500 dbExpired req0).2 = .err 401 "Nonce has expired" := by
  decide


/-- With exactly one matching unused row, a verify succeeds, and an
immediately repeated verify presenting the same nonce gets the
generic `401 Invalid or expired nonce`. -/
theorem consume_once (env : Env) (now : Nat) (db : DB)
    (w sig msg tok c recov uid : String) (row : NonceRow)
    (hw : w ≠ "") (hs : sig ≠ "") (hm : msg ≠ "")
    (hAddr : env.isAddress w = true)
    (hGet : env.getAddress w = some c)
    (hExtract : extractNonceStr msg = some tok)
    (hLookup : db.authNonces.filter (nonceSelPred tok c) = [row])
    (hNotExp : ¬ row.expiresAt < now)
    (hVm : env.verifyMessage msg sig = some recov)
    (hRec : lowerStr recov = lowerStr c)
    (hSignUp : env.signUpResult = some uid) :
    (verifyHandler env now db ⟨some w, some sig, some msg⟩).2.isOk = true
  ∧ (verifyHandler env now
        (verifyHandler env now db ⟨some w, some sig, some msg⟩).1
        ⟨some w, some sig, some msg⟩).2
      = .err 401 "Invalid or expired nonce" := by
  have hPh1 := verifyPhase1_ok env now db w sig msg tok c recov row
    hw hs hm hAddr hGet hExtract hLookup hNotExp hVm hRec
  have hLookup2 : ((verifyPhase2 env now db c row).1).authNonces.filter
      (nonceSelPred tok c) = [] := by
    rw [verifyPhase2, finishVerify_authNonces]
    exact filter_markUsed_nil db tok c row hLookup
  constructor
  · simp only [verifyHandler, hPh1]
    rw [verifyPhase2]
    exact finishVerify_isOk env now _ c uid hSignUp
  · simp only [verifyHandler, hPh1]
    rw [verifyPhase1_nonce_gone env now _ w sig msg tok c
        hw hs hm hAddr hGet hExtract hLookup2]

/-- C1 (amended): for every valid wallet address, `issue` followed by a
verify presenting the returned nonce succeeds exactly once, and a
second verify with the same nonce fails; but the second failure is the
generic `401 Invalid or expired nonce` — identical to the
nonce-not-found response — so `NonceExpired` is the only failure cause
distinguishable to the caller; `NonceAlreadyUsed` and `NonceNotFound`
are not distinguishable from each other. -/
theorem c1_nonce_single_use (env : Env) (nowI nowV : Nat) (db : DB)
    (w c tok sig recov uid : String)
    (hw : w ≠ "") (hs : sig ≠ "")
    (hAddr : env.isAddress w = true)
    (hGet : env.getAddress w = some c)
    (hIns : env.nonceInsertFails = false)
    (hNe : tok.data ≠ [])
    (hHex : tok.data.all isHexLower = true)
    (hNoPrior : db.authNonces.filter (nonceSelPred tok c) = [])
    (hTime : ¬ nowI + fiveMinutes < nowV)
    (hVm : env.verifyMessage (challengeMessage tok (env.toISOString nowI)) sig
             = some recov)
    (hRec : lowerStr recov = lowerStr c)
    (hSignUp : env.signUpResult = some uid) :
    (nonceHandler env nowI tok db w).2 =
        .ok ⟨tok, challengeMessage tok (env.toISOString nowI),
             env.toISOString (nowI + fiveMinutes)⟩
  ∧ (verifyHandler env nowV (nonceHandler env nowI tok db w).1
        ⟨some w, some sig,
         some (challengeMessage tok (env.toISOString nowI))⟩).2.isOk = true
  ∧ (verifyHandler env nowV
        (verifyHandler env nowV (nonceHandler env nowI tok db w).1
          ⟨some w, some sig,
           some (challengeMessage tok (env.toISOString nowI))⟩).1
        ⟨some w, some sig,
         some (challengeMessage tok (env.toISOString nowI))⟩).2
      = .err 401 "Invalid or expired nonce" := by
  have hIssue : nonceHandler env nowI tok db w =
      ({ db with
          authNonces := db.authNonces ++
            [⟨db.nextNonceId, c, tok, nowI + fiveMinutes, false⟩],
          nextNonceId := db.nextNonceId + 1 },
       .ok ⟨tok, challengeMessage tok (env.toISOString nowI),
            env.toISOString (nowI + fiveMinutes)⟩) := by
    unfold nonceHandler
    simp [hAddr, hGet, hIns]
  rw [hIssue]
  have hLookup1 : ({ db with
      authNonces := db.authNonces ++
        [⟨db.nextNonceId, c, tok, nowI + fiveMinutes, false⟩],
      nextNonceId := db.nextNonceId + 1 } : DB).authNonces.filter
        (nonceSelPred tok c)
      = [⟨db.nextNonceId, c, tok, nowI + fiveMinutes, false⟩] := by
    show (db.authNonces ++ _).filter _ = _
    rw [List.filter_append, hNoPrior]
    simp [nonceSelPred]
  have hBoth := consume_once env nowV
    ({ db with
        authNonces := db.authNonces ++
          [⟨db.nextNonceId, c, tok, nowI + fiveMinutes, false⟩],
        nextNonceId := db.nextNonceId + 1 })
    w sig (challengeMessage tok (env.toISOString nowI)) tok c recov uid
    ⟨db.nextNonceId, c, tok, nowI + fiveMinutes, false⟩
    hw hs (challengeMessage_ne_empty _ _) hAddr hGet
    (extract_roundtrip _ _ hNe hHex) hLookup1 hTime hVm hRec hSignUp
  exact ⟨rfl, hBoth.1, hBoth.2⟩

/-- C1 witness: a concrete issue–verify–verify cycle for `addr0`. -/
theorem c1_nonce_single_use_witness :
    (nonceHandler env0 100 tok0 dbEmpty addr0).2 = .ok ⟨tok0, msg0, iso0⟩
  ∧ (verifyHandler env0 500 (nonceHandler env0 100 tok0 dbEmpty addr0).1
        req0).2.isOk = true
  ∧ (verifyHandler env0 500
        (verifyHandler env0 500 (nonceHandler env0 100 tok0 dbEmpty addr0).1
          req0).1 req0).2 = .err 401 "Invalid or expired nonce" :=
  c1_nonce_single_use env0 100 500 dbEmpty addr0 addr0 tok0 "goodsig" addr0
    "user-1" (by decide) (by decide) (by decide) rfl rfl (by decide) (by decide)
    rfl (by decide) (by decide) rfl rfl

/-- C8 counterexample: verify failures are not terminal for the nonce.
A first attempt with an invalid signature fails and leaves the store
unchanged (the nonce is still `used = false`), and a later attempt
presenting the same nonce succeeds — contradicting the claim that once
an attempt presenting a nonce has failed, no later attempt with that
nonce can succeed. -/
theorem c8_counterexample :
    (verifyHandler env0 500 dbOne reqBad).2 = .err 401 "Invalid signature"
  ∧ (verifyHandler env0 500 dbOne reqBad).1 = dbOne
  ∧ (verifyHandler env0 500 (verifyHandler env0 500 dbOne reqBad).1
        req0).2.isOk = true := by
  decide

/-- C8 (amended): a failed verify does not consume the nonce: every
error response other than the post-consumption
`Failed to create user account` one leaves the store unchanged, so the
presented nonce is still unused and a later attempt with the same
nonce can succeed — failures are not terminal for the nonce; only a
successful verification (or a sign-up failure occurring after the
`used := true` update) consumes it. -/
theorem c8_failure_leaves_store (env : Env) (now : Nat) (db : DB)
    (req : VerifyReq) (s : Nat) (m : String)
    (hRes : (verifyHandler env now db req).2 = .err s m)
    (hm : m ≠ "Failed to create user account") :
    (verifyHandler env now db req).1 = db := by
  unfold verifyHandler at *
  cases h1 : verifyPhase1 env now db req with
  | inl e => rfl
  | inr p =>
    obtain ⟨c, row⟩ := p
    rw [h1] at hRes
    have hRes2 : (finishVerify env now (markUsed db row.id) c).2 = .err s m := hRes
    unfold finishVerify createUser at hRes2
    cases h2 : resolveHit (markUsed db row.id) c with
    | some u =>
      rw [h2] at hRes2
      exact absurd hRes2 (by simp)
    | none =>
      rw [h2] at hRes2
      cases h3 : env.signUpResult with
      | some uid =>
        rw [h3] at hRes2
        exact absurd hRes2 (by simp)
      | none =>
        rw [h3] at hRes2
        simp only [HttpRes.err.injEq] at hRes2
        exact absurd hRes2.2.symm hm

/-- C8 witness: concrete failed attempt leaving the store unchanged. -/
theorem c8_failure_leaves_store_witness :
    (verifyHandler env0 500 dbUsed req0).1 = dbUsed :=
  c8_failure_leaves_store env0 500 dbUsed req0 401 "Invalid or expired nonce"
    (by decide) (by decide)

/-- C6: every success response of the verify flow carries a token that
is exactly the pure signature of the payload
`{userId, walletAddress, authMethod: "wallet"}` at the issuance time,
with expiry `iat + 7 days`; `jwtSign` is a plain function of the
payload and time, so issuing the token has no side effects. -/
theorem c6_session_token (env : Env) (now : Nat) (db : DB) (req : VerifyReq)
    (s : VerifySuccess)
    (hRes : (verifyHandler env now db req).2 = .ok s) :
    s.token = jwtSign ⟨s.userId, s.walletAddress, "wallet"⟩ now
  ∧ s.token.payload.authMethod = "wallet"
  ∧ s.token.payload.userId = s.userId
  ∧ s.token.payload.walletAddress = s.walletAddress
  ∧ s.token.iat = now
  ∧ s.token.exp = now + sevenDays := by
  unfold verifyHandler at hRes
  cases h1 : verifyPhase1 env now db req with
  | inl e =>
    rw [h1] at hRes
    have he : e.isOk = false := verifyPhase1_inl_isOk env now db req e h1
    have : e = .ok s := hRes
    rw [this] at he
    exact absurd he (by simp [HttpRes.isOk])
  | inr p =>
    obtain ⟨c, row⟩ := p
    rw [h1] at hRes
    have hRes2 : (finishVerify env now (markUsed db row.id) c).2 = .ok s := hRes
    unfold finishVerify createUser at hRes2
    cases h2 : resolveHit (markUsed db row.id) c with
    | some u =>
      rw [h2] at hRes2
      have hs2 : (⟨jwtSign ⟨u, c, "wallet"⟩ now, u, c, false,
          "Login successful"⟩ : VerifySuccess) = s := by
        exact congrArg (fun r => match r with
          | HttpRes.ok v => v
          | HttpRes.err _ _ => s) hRes2
      rw [← hs2]
      exact ⟨rfl, rfl, rfl, rfl, rfl, rfl⟩
    | none =>
      rw [h2] at hRes2
      cases h3 : env.signUpResult with
      | none =>
        rw [h3] at hRes2
        exact absurd hRes2 (by simp)
      | some uid =>
        rw [h3] at hRes2
        simp only [HttpRes.ok.injEq] at hRes2
        rw [← hRes2]
        exact ⟨rfl, rfl, rfl, rfl, rfl, rfl⟩

/-- C6 witness: the concrete new-account verify run and its token. -/
theorem c6_session_token_witness :
    (⟨⟨⟨"user-1", addr0, "wallet"⟩, 500, 500 + sevenDays⟩, "user-1", addr0,
        true, "Account created successfully"⟩ : VerifySuccess).token
      = jwtSign ⟨"user-1", addr0, "wallet"⟩ 500
  ∧ (⟨⟨⟨"user-1", addr0, "wallet"⟩, 500, 500 + sevenDays⟩, "user-1", addr0,
        true, "Account created successfully"⟩ : VerifySuccess).token.payload.authMethod
      = "wallet"
  ∧ (⟨⟨⟨"user-1", addr0, "wallet"⟩, 500, 500 + sevenDays⟩, "user-1", addr0,
        true, "Account created successfully"⟩ : VerifySuccess).token.payload.userId
      = "user-1"
  ∧ (⟨⟨⟨"user-1", addr0, "wallet"⟩, 500, 500 + sevenDays⟩, "user-1", addr0,
        true, "Account created successfully"⟩ : VerifySuccess).token.payload.walletAddress
      = addr0
  ∧ (⟨⟨⟨"user-1", addr0, "wallet"⟩, 500, 500 + sevenDays⟩, "user-1", addr0,
        true, "Account created successfully"⟩ : VerifySuccess).token.iat = 500
  ∧ (⟨⟨⟨"user-1", addr0, "wallet"⟩, 500, 500 + sevenDays⟩, "user-1", addr0,
        true, "Account created successfully"⟩ : VerifySuccess).token.exp
      = 500 + sevenDays := by
  have h := c6_session_token env0 500 dbOne req0
    ⟨⟨⟨"user-1", addr0, "wallet"⟩, 500, 500 + sevenDays⟩, "user-1", addr0,
      true, "Account created successfully"⟩ (by decide)
  exact ⟨h.1, h.2.1, h.2.2.1, h.2.2.2.1, h.2.2.2.2.1, h.2.2.2.2.2⟩

/-- C7: for a link request with a valid session token whose subject
equals the presented user id, linking fails with the
`Wallet already linked` response whenever any existing wallet row —
whoever owns it, including the caller — holds the address, and only
when no such row exists is a new link persisted (primary iff the
caller had no links). The store-uniqueness invariant (at most one row
per address) is assumed, as the spec requires of the store. -/
theorem c7_link_unique (env : Env) (db : DB) (w uid tokStr c : String)
    (d : JwtPayload)
    (hw : w ≠ "") (hu : uid ≠ "") (ht : tokStr ≠ "")
    (hJwt : env.jwtVerify tokStr = some d)
    (hSubj : d.userId = uid)
    (hGet : env.getAddress w = some c)
    (hUniq : (db.walletAddresses.filter
        (fun r => decide (r.walletAddress = c))).length ≤ 1)
    (hIns : env.linkInsertFails = false) :
    ((∃ r ∈ db.walletAddresses, r.walletAddress = c) →
        linkWalletHandler env db ⟨some w, some uid, some tokStr⟩
          = (db, .err 400 "Wallet already linked to another account"))
  ∧ ((∀ r ∈ db.walletAddresses, r.walletAddress ≠ c) →
        linkWalletHandler env db ⟨some w, some uid, some tokStr⟩
          = ({ db with walletAddresses := db.walletAddresses ++
                [⟨uid, c, decide (userWalletCount db uid = 0)⟩] },
             .ok ⟨"Wallet linked successfully", c⟩)) := by
  constructor
  · intro hEx
    obtain ⟨r, hrMem, hrAddr⟩ := hEx
    have hLen : (db.walletAddresses.filter
        (fun r => decide (r.walletAddress = c))).length = 1 := by
      have hMem : r ∈ db.walletAddresses.filter
          (fun r => decide (r.walletAddress = c)) :=
        List.mem_filter.mpr ⟨hrMem, by simp [hrAddr]⟩
      have hPos : 0 < (db.walletAddresses.filter
          (fun r => decide (r.walletAddress = c))).length :=
        List.length_pos.mpr (List.ne_nil_of_mem hMem)
      omega
    obtain ⟨x, hx⟩ := List.length_eq_one.mp hLen
    unfold linkWalletHandler
    simp [falsy, hw, hu, ht, hJwt, hSubj, hGet, walletLookup, hx, maybeSingle]
  · intro hAll
    have hNil : db.walletAddresses.filter
        (fun r => decide (r.walletAddress = c)) = [] := by
      rw [List.filter_eq_nil_iff]
      intro a ha
      simp [hAll a ha]
    unfold linkWalletHandler
    simp [falsy, hw, hu, ht, hJwt, hSubj, hGet, walletLookup, hNil,
          maybeSingle, hIns]

/-- C7 witness: the address already linked to the caller's own account
is rejected; linking a fresh address persists a primary link. -/
theorem c7_link_unique_witness :
    linkWalletHandler env0 dbLinked linkReq0
      = (dbLinked, .err 400 "Wallet already linked to another account")
  ∧ linkWalletHandler env0 dbEmpty linkReq0
      = (⟨[], [⟨"user-1", addr0, true⟩], [], 1⟩,
         .ok ⟨"Wallet linked successfully", addr0⟩) :=
  ⟨(c7_link_unique env0 dbLinked addr0 "user-1" "token-1" addr0 payload0
      (by decide) (by decide) (by decide) rfl rfl rfl (by decide) rfl).1
    (by decide),
   (c7_link_unique env0 dbEmpty addr0 "user-1" "token-1" addr0 payload0
      (by decide) (by decide) (by decide) rfl rfl rfl (by decide) rfl).2
    (by decide)⟩

/-- C10: a link-wallet request with all fields present, a valid token
whose subject equals the user id, but a syntactically invalid wallet
address gets a 500 internal error: `ethers.getAddress` throws into the
generic catch because the address is never validated beforehand (there
is no `isAddress` check in this endpoint), instead of a 400 validation
response. -/
theorem c10_invalid_address_500 (env : Env) (db : DB)
    (w uid tokStr : String) (d : JwtPayload)
    (hw : w ≠ "") (hu : uid ≠ "") (ht : tokStr ≠ "")
    (hJwt : env.jwtVerify tokStr = some d)
    (hSubj : d.userId = uid)
    (hGet : env.getAddress w = none) :
    linkWalletHandler env db ⟨some w, some uid, some tokStr⟩
      = (db, .err 500 "Internal server error") := by
  unfold linkWalletHandler
  simp [falsy, hw, hu, ht, hJwt, hSubj, hGet]

/-- C10 witness: concrete malformed address `not-an-address`. -/
theorem c10_invalid_address_500_witness :
    linkWalletHandler env0 dbEmpty
        ⟨some "not-an-address", some "user-1", some "token-1"⟩
      = (dbEmpty, .err 500 "Internal server error") :=
  c10_invalid_address_500 env0 dbEmpty "not-an-address" "user-1" "token-1"
    payload0 (by decide) (by decide) (by decide) rfl rfl (by decide)

/-- C9: in the verify flow for a never-before-seen wallet address,
failures of the profile insert or of the wallet-link insert are only
logged and do not fail the request: the response is still a success
with a token for the newly created identity, even though no wallet
row (and, respectively, no profile row) was persisted. -/
theorem c9_resolver_failures_ignored (env : Env) (now : Nat) (db : DB)
    (w sig msg tok c recov uid : String) (row : NonceRow)
    (hw : w ≠ "") (hs : sig ≠ "") (hm : msg ≠ "")
    (hAddr : env.isAddress w = true)
    (hGet : env.getAddress w = some c)
    (hExtract : extractNonceStr msg = some tok)
    (hLookup : db.authNonces.filter (nonceSelPred tok c) = [row])
    (hNotExp : ¬ row.expiresAt < now)
    (hVm : env.verifyMessage msg sig = some recov)
    (hRec : lowerStr recov = lowerStr c)
    (hSignUp : env.signUpResult = some uid)
    (hNoWallet : db.walletAddresses.filter
        (fun r => decide (r.walletAddress = c)) = [])
    (hWFail : env.walletInsertFails = true) :
    (verifyHandler env now db ⟨some w, some sig, some msg⟩).2
        = .ok ⟨jwtSign ⟨uid, c, "wallet"⟩ now, uid, c, true,
               "Account created successfully"⟩
  ∧ (verifyHandler env now db ⟨some w, some sig, some msg⟩).1.walletAddresses
        = db.walletAddresses
  ∧ (env.profileInsertFails = true →
        (verifyHandler env now db ⟨some w, some sig, some msg⟩).1.profiles
          = db.profiles) := by
  have hPh1 := verifyPhase1_ok env now db w sig msg tok c recov row
    hw hs hm hAddr hGet hExtract hLookup hNotExp hVm hRec
  have hHit : resolveHit (markUsed db row.id) c = none := by
    unfold resolveHit walletLookup
    have : (markUsed db row.id).walletAddresses = db.walletAddresses := rfl
    rw [this, hNoWallet]
    rfl
  simp only [verifyHandler, hPh1, verifyPhase2]
  unfold finishVerify createUser
  rw [hHit, hSignUp]
  cases hp : env.profileInsertFails with
  | true => simp [hWFail, markUsed]
  | false => simp [hWFail, markUsed]

/-- C9 witness: concrete run with both inserts failing. -/
theorem c9_resolver_failures_ignored_witness :
    (verifyHandler env9 500 dbOne req0).2
        = .ok ⟨jwtSign ⟨"user-1", addr0, "wallet"⟩ 500, "user-1", addr0, true,
               "Account created successfully"⟩
  ∧ (verifyHandler env9 500 dbOne req0).1.walletAddresses
        = dbOne.walletAddresses
  ∧ (verifyHandler env9 500 dbOne req0).1.profiles = dbOne.profiles := by
  have h := c9_resolver_failures_ignored env9 500 dbOne addr0 "goodsig" msg0
    tok0 addr0 addr0 "user-1" rowUnused (by decide) (by decide) (by decide)
    (by decide) rfl (by decide) (by decide) (by decide) rfl rfl rfl rfl rfl
  exact ⟨h.1, h.2.1, h.2.2 rfl⟩

/-- C2 counterexample: the address comparison is not exact. With the
claimed address normalized to `0xAB` and signature recovery returning
the differently-cased string `0xab`, verification succeeds — under the
claim's "normalize then compare exactly (not case-insensitively)"
semantics this run would have to fail with an address mismatch, since
the two compared strings are unequal. Line 131 compares
`toLowerCase()` of both sides, i.e. case-insensitively, and the
recovered address is never itself re-normalized. -/
theorem c2_counterexample :
    (verifyHandler (envC2 (some "0xab")) 500 dbW reqW).2.isOk = true
  ∧ ("0xab" : String) ≠ "0xAB" := by
  decide

/-- C2 (amended): the claimed address is checksum-normalized and
compared to the recovered address case-insensitively (both sides
lower-cased, server.js line 131). Because both sides are canonical
checksum outputs of their underlying addresses, the lower-cased
comparison coincides with equality of the underlying addresses:
verification succeeds iff recovered and claimed denote the same
address, fails with the 401 mismatch response otherwise, and fails
with `401 Invalid signature` when recovery fails. `canon` is the
canonical checksum rendering; `a` and `b` the underlying addresses
recovered and claimed. -/
theorem c2_checksum_compare (env : Env) (now : Nat) (db : DB)
    (w sig msg tok uid : String) (row : NonceRow)
    (canon : Nat → String) (a b : Nat)
    (hw : w ≠ "") (hs : sig ≠ "") (hm : msg ≠ "")
    (hAddr : env.isAddress w = true)
    (hGet : env.getAddress w = some (canon b))
    (hExtract : extractNonceStr msg = some tok)
    (hLookup : db.authNonces.filter (nonceSelPred tok (canon b)) = [row])
    (hNotExp : ¬ row.expiresAt < now)
    (hSignUp : env.signUpResult = some uid)
    (hDist : a ≠ b → lowerStr (canon a) ≠ lowerStr (canon b)) :
    (env.verifyMessage msg sig = none →
        (verifyHandler env now db ⟨some w, some sig, some msg⟩).2
          = .err 401 "Invalid signature")
  ∧ (env.verifyMessage msg sig = some (canon a) →
      ((a = b →
          (verifyHandler env now db ⟨some w, some sig, some msg⟩).2.isOk = true)
       ∧ (a ≠ b →
          (verifyHandler env now db ⟨some w, some sig, some msg⟩).2
            = .err 401 "Signature does not match wallet address"))) := by
  have hStage := verifyPhase1_sigStage env now db w sig msg tok (canon b) row
    hw hs hm hAddr hGet hExtract hLookup hNotExp
  refine ⟨?_, ?_⟩
  · intro hVm
    rw [hVm] at hStage
    have hStage0 : verifyPhase1 env now db ⟨some w, some sig, some msg⟩
        = .inl (.err 401 "Invalid signature") := hStage
    simp only [verifyHandler, hStage0]
  · intro hVm
    rw [hVm] at hStage
    have hStage1 : verifyPhase1 env now db ⟨some w, some sig, some msg⟩
        = (if lowerStr (canon a) ≠ lowerStr (canon b) then
             .inl (.err 401 "Signature does not match wallet address")
           else .inr (canon b, row)) := hStage
    constructor
    · intro hab
      rw [hab] at hStage1
      rw [if_neg (fun h2 => h2 rfl)] at hStage1
      simp only [verifyHandler, hStage1, verifyPhase2]
      exact finishVerify_isOk env now _ (canon b) uid hSignUp
    · intro hab
      have hne := hDist hab
      rw [if_pos hne] at hStage1
      simp only [verifyHandler, hStage1]

/-- C2 witness: the three outcomes at concrete inputs — recovery
failure, same underlying address (success), different underlying
addresses (mismatch) — using the concrete canonical renderings
`canonW 0 = 0xAB` and `canonW 1 = 0xCD`. -/
theorem c2_checksum_compare_witness :
    (verifyHandler (envC2 none) 500 dbW reqW).2 = .err 401 "Invalid signature"
  ∧ (verifyHandler (envC2 (some "0xAB")) 500 dbW reqW).2.isOk = true
  ∧ (verifyHandler (envC2 (some "0xCD")) 500 dbW reqW).2
      = .err 401 "Signature does not match wallet address" :=
  ⟨(c2_checksum_compare (envC2 none) 500 dbW "0xab" "sig1" msg0 tok0 "user-1"
      rowW canonW 0 0 (by decide) (by decide) (by decide) (by decide) rfl
      (by decide) (by decide) (by decide) rfl (by decide)).1 rfl,
   ((c2_checksum_compare (envC2 (some "0xAB")) 500 dbW "0xab" "sig1" msg0 tok0
      "user-1" rowW canonW 0 0 (by decide) (by decide) (by decide) (by decide)
      rfl (by decide) (by decide) (by decide) rfl (by decide)).2 rfl).1 rfl,
   ((c2_checksum_compare (envC2 (some "0xCD")) 500 dbW "0xab" "sig1" msg0 tok0
      "user-1" rowW canonW 1 0 (by decide) (by decide) (by decide) (by decide)
      rfl (by decide) (by decide) (by decide) rfl (by decide)).2 rfl).2
    (by decide)⟩

/-- C3 counterexample: the check-and-flip is not atomic. Under the
interleaving select₁, select₂, update₁, update₂ (schedule
`[true, false, true, false]`), two verification attempts presenting
the same nonce value for the same address BOTH succeed, because each
runs the `used = false` select before either performs the separate
`used := true` update (server.js lines 107-113 versus 135-138) —
contradicting "exactly one succeeds". -/
theorem c3_counterexample :
    (runTwo env0 500 ⟨dbOne, .start req0, .start req0⟩
        [true, false, true, false]).s1.isDoneOk = true
  ∧ (runTwo env0 500 ⟨dbOne, .start req0, .start req0⟩
        [true, false, true, false]).s2.isDoneOk = true := by
  decide

/-- C3 (amended): the consume check (select with `used = false`) and
the flip (`used := true` update) are two separate store operations
with an in-between window, so interleaved schedules can make both of
two concurrent attempts succeed; only when one request completes both
operations before the other's select (schedule
`[true, true, false, false]`) does exactly one succeed while the other
observes the generic `401 Invalid or expired nonce`. -/
theorem c3_sequential_consume (env : Env) (now : Nat) (db : DB)
    (w sig msg tok c recov uid : String) (row : NonceRow)
    (hw : w ≠ "") (hs : sig ≠ "") (hm : msg ≠ "")
    (hAddr : env.isAddress w = true)
    (hGet : env.getAddress w = some c)
    (hExtract : extractNonceStr msg = some tok)
    (hLookup : db.authNonces.filter (nonceSelPred tok c) = [row])
    (hNotExp : ¬ row.expiresAt < now)
    (hVm : env.verifyMessage msg sig = some recov)
    (hRec : lowerStr recov = lowerStr c)
    (hSignUp : env.signUpResult = some uid) :
    (runTwo env now ⟨db, .start ⟨some w, some sig, some msg⟩,
        .start ⟨some w, some sig, some msg⟩⟩
        [true, true, false, false]).s1.isDoneOk = true
  ∧ (runTwo env now ⟨db, .start ⟨some w, some sig, some msg⟩,
        .start ⟨some w, some sig, some msg⟩⟩
        [true, true, false, false]).s2
      = .done (.err 401 "Invalid or expired nonce") := by
  have hPh1 := verifyPhase1_ok env now db w sig msg tok c recov row
    hw hs hm hAddr hGet hExtract hLookup hNotExp hVm hRec
  have hLookup2 : ((verifyPhase2 env now db c row).1).authNonces.filter
      (nonceSelPred tok c) = [] := by
    rw [verifyPhase2, finishVerify_authNonces]
    exact filter_markUsed_nil db tok c row hLookup
  have hPh1gone := verifyPhase1_nonce_gone env now
    ((verifyPhase2 env now db c row).1) w sig msg tok c
    hw hs hm hAddr hGet hExtract hLookup2
  have hStep1 : stepTwo env now
      ⟨db, .start ⟨some w, some sig, some msg⟩,
       .start ⟨some w, some sig, some msg⟩⟩ true
      = ⟨db, .mid c row, .start ⟨some w, some sig, some msg⟩⟩ := by
    simp [stepTwo, stepReq, hPh1]
  have hStep2 : stepTwo env now
      ⟨db, .mid c row, .start ⟨some w, some sig, some msg⟩⟩ true
      = ⟨(verifyPhase2 env now db c row).1,
         .done (verifyPhase2 env now db c row).2,
         .start ⟨some w, some sig, some msg⟩⟩ := by
    simp [stepTwo, stepReq]
  have hStep3 : stepTwo env now
      ⟨(verifyPhase2 env now db c row).1,
       .done (verifyPhase2 env now db c row).2,
       .start ⟨some w, some sig, some msg⟩⟩ false
      = ⟨(verifyPhase2 env now db c row).1,
         .done (verifyPhase2 env now db c row).2,
         .done (.err 401 "Invalid or expired nonce")⟩ := by
    simp [stepTwo, stepReq, hPh1gone]
  have hStep4 : stepTwo env now
      ⟨(verifyPhase2 env now db c row).1,
       .done (verifyPhase2 env now db c row).2,
       .done (.err 401 "Invalid or expired nonce")⟩ false
      = ⟨(verifyPhase2 env now db c row).1,
         .done (verifyPhase2 env now db c row).2,
         .done (.err 401 "Invalid or expired nonce")⟩ := by
    simp [stepTwo, stepReq]
  have hRun : runTwo env now
      ⟨db, .start ⟨some w, some sig, some msg⟩,
       .start ⟨some w, some sig, some msg⟩⟩ [true, true, false, false]
      = ⟨(verifyPhase2 env now db c row).1,
         .done (verifyPhase2 env now db c row).2,
         .done (.err 401 "Invalid or expired nonce")⟩ := by
    rw [runTwo, hStep1, runTwo, hStep2, runTwo, hStep3, runTwo, hStep4, runTwo]
  rw [hRun]
  constructor
  · show ((verifyPhase2 env now db c row).2).isOk = true
    rw [verifyPhase2]
    exact finishVerify_isOk env now _ c uid hSignUp
  · rfl

/-- C3 witness: the sequential schedule at the concrete fixtures. -/
theorem c3_sequential_consume_witness :
    (runTwo env0 500 ⟨dbOne, .start req0, .start req0⟩
        [true, true, false, false]).s1.isDoneOk = true
  ∧ (runTwo env0 500 ⟨dbOne, .start req0, .start req0⟩
        [true, true, false, false]).s2
      = .done (.err 401 "Invalid or expired nonce") :=
  c3_sequential_consume env0 500 dbOne addr0 "goodsig" msg0 tok0 addr0 addr0
    "user-1" rowUnused (by decide) (by decide) (by decide) (by decide) rfl
    (by decide) (by decide) (by decide) rfl (by decide) rfl
